import Mathlib

/-!
Shallow embedding of the dbus-anenji repository's acquisition-and-translation
core: the working-mode to Mode/State translators of the three VE.Bus-style
variants, the inverter-role translators, the poll-tick publish and failure
handling of the services, and the energy accumulator with throttled
persistence of dbus-multiplus-emulator.py.  Machine floats are modelled as
exact rationals; an exception raised during the acquisition phase is
modelled by the acquisition result being none.
-/

namespace Multiplus

/-- Working-mode to VE.Bus Mode mapping of venus-sumry-dbus/multiplus.py,
function vebus_mode_from_wm: Charging (5) yields Charger only (1);
Off-Grid, Mains, Bypass (3, 2, 4) yield On (3); everything else Off (4). -/
def vebus_mode_from_wm (wm : Nat) : Nat :=
  if wm = 5 then 1
  else if wm = 3 ∨ wm = 2 ∨ wm = 4 then 3
  else 4

/-- Working-mode to VE.Bus State mapping of venus-sumry-dbus/multiplus.py,
function vebus_state_from_wm: Standby and PowerOn (1, 0) yield 1;
Off-Grid, Mains, Bypass, Charging (3, 2, 4, 5) yield Inverting (9);
Fault (6) yields 1; everything else 1. -/
def vebus_state_from_wm (wm : Nat) : Nat :=
  if wm = 1 ∨ wm = 0 then 1
  else if wm = 3 ∨ wm = 2 ∨ wm = 4 ∨ wm = 5 then 9
  else if wm = 6 then 1
  else 1

/-- Derived AC-input current of collect_snapshot in
venus-sumry-dbus/multiplus.py: in_p divided by in_v when in_v is nonzero
(Python truthiness of a float), and 0.0 otherwise. -/
def in_i (in_p : Int) (in_v : Rat) : Rat :=
  if in_v ≠ 0 then (in_p : Rat) / in_v else 0

end Multiplus

namespace Celmaibun

/-- Working-mode to VE.Bus Mode mapping of
dbus-multiplus-emulator/celmaibun.py, function vebus_mode_from_wm:
Off-grid (3) yields On (3); Mains, Bypass, Charging (2, 4, 5) yield
Charger only (1); everything else Off (4). -/
def vebus_mode_from_wm (wm : Nat) : Nat :=
  if wm = 3 then 3
  else if wm = 2 ∨ wm = 4 ∨ wm = 5 then 1
  else 4

/-- Working-mode to VE.Bus State mapping of
dbus-multiplus-emulator/celmaibun.py, function vebus_state_from_wm:
Charging (5) yields Bulk (3); Off-grid (3) yields Inverting (9);
Mains and Bypass (2, 4) yield Bulk (3); PowerOn and Standby (0, 1)
yield Low power (1); everything else 1. -/
def vebus_state_from_wm (wm : Nat) : Nat :=
  if wm = 5 then 3
  else if wm = 3 then 9
  else if wm = 2 ∨ wm = 4 then 3
  else if wm = 0 ∨ wm = 1 then 1
  else 1

/-- Derived AC-input current in update of
dbus-multiplus-emulator/celmaibun.py: in_p divided by in_v when in_v
exceeds 20 volts, and 0.0 otherwise (in_p is the absolute value of the
decoded register there). -/
def in_i (in_p : Int) (in_v : Rat) : Rat :=
  if in_v > 20 then (in_p : Rat) / in_v else 0

end Celmaibun

namespace Inverter

/-- Working-mode to Venus Mode mapping of venus-sumry-dbus/inverter.py,
function venus_mode_from_wm: Off-Grid, Mains, Bypass, Charging
(3, 2, 4, 5) yield On (1); Standby, PowerOn, Fault (1, 0, 6) yield
Off (4); everything else 4. -/
def venus_mode_from_wm (wm : Nat) : Nat :=
  if wm = 3 ∨ wm = 2 ∨ wm = 4 ∨ wm = 5 then 1
  else if wm = 1 ∨ wm = 0 ∨ wm = 6 then 4
  else 4

/-- Working-mode to Venus State mapping of venus-sumry-dbus/inverter.py,
function venus_state_from_wm: Standby and PowerOn (1, 0) yield Standby
(1); Off-Grid, Mains, Bypass, Charging (3, 2, 4, 5) yield Inverting (9);
Fault (6) yields 1; everything else 1. -/
def venus_state_from_wm (wm : Nat) : Nat :=
  if wm = 1 ∨ wm = 0 then 1
  else if wm = 3 ∨ wm = 2 ∨ wm = 4 ∨ wm = 5 then 9
  else if wm = 6 then 1
  else 1

end Inverter

namespace Emulator

/-- In-memory energy counters of dbus-multiplus-emulator.py, module-level
dict called energy there, keys AcIn1ToInverter_kWh, AcIn1ToAcOut_kWh and
InverterToAcOut_kWh, initialised to 0.0 each. -/
structure Energy where
  AcIn1ToInverter_kWh : Rat
  AcIn1ToAcOut_kWh : Rat
  InverterToAcOut_kWh : Rat
deriving DecidableEq

/-- Initial value of the module-level energy dict: all three counters 0. -/
def initEnergy : Energy := ⟨0, 0, 0⟩

/-- Parsed content of the persisted energy JSON file.  Each field is some
value exactly when the corresponding key is present in the parsed object
with a numeric value (the isinstance check of the load function); a
missing, unreadable or unparsable file is represented by the whole
Option EnergyData being none. -/
structure EnergyData where
  acIn1ToInverter : Option Rat
  acIn1ToAcOut : Option Rat
  inverterToAcOut : Option Rat
deriving DecidableEq

/-- JSON object that the save function writes with json.dump of the energy
dict: all three keys present with their current numeric values. -/
def saveData (e : Energy) : EnergyData :=
  ⟨some e.AcIn1ToInverter_kWh, some e.AcIn1ToAcOut_kWh,
   some e.InverterToAcOut_kWh⟩

/-- Energy-file load of dbus-multiplus-emulator.py: on any exception the
counters are left as they are; otherwise each of the three keys that is
present with a numeric value overwrites the counter of the same name. -/
def load_energy (file : Option EnergyData) (e : Energy) : Energy :=
  match file with
  | none => e
  | some d =>
      { AcIn1ToInverter_kWh := d.acIn1ToInverter.getD e.AcIn1ToInverter_kWh
        AcIn1ToAcOut_kWh := d.acIn1ToAcOut.getD e.AcIn1ToAcOut_kWh
        InverterToAcOut_kWh := d.inverterToAcOut.getD e.InverterToAcOut_kWh }

/-- ENERGY_SAVE_SEC of dbus-multiplus-emulator.py: disk writes are
throttled to at most one per 60 seconds. -/
def ENERGY_SAVE_SEC : Rat := 60

/-- Throttled energy save of dbus-multiplus-emulator.py.  Arguments: the
current time, whether the file write would succeed (the try block),
the in-memory counters and the last-save timestamp.  Returns the new
last-save timestamp and the file written, if any: nothing is written when
less than ENERGY_SAVE_SEC elapsed since the last successful write, and a
failed write is logged without advancing the timestamp. -/
def save_energy (now : Rat) (writeOk : Bool) (e : Energy) (lastSave : Rat) :
    Rat × Option EnergyData :=
  if now - lastSave < ENERGY_SAVE_SEC then (lastSave, none)
  else if writeOk then (now, some (saveData e))
  else (lastSave, none)

/-- One successful acquisition of the update method of
dbus-multiplus-emulator.py: the raw register values read inside the try
block.  The optional state of charge is none when its own inner read
raised. -/
structure Acq where
  wm : Nat
  in_v_raw : Int
  in_f_raw : Int
  in_p : Int
  out_v_raw : Int
  out_i_raw : Int
  out_f_raw : Int
  out_p : Int
  out_s : Int
  dc_v_raw : Int
  dc_i_raw : Int
  dc_p : Int
  soc : Option Nat
deriving DecidableEq

/-- Working-mode to VE.Bus Mode mapping of
dbus-multiplus-emulator/dbus-multiplus-emulator.py, function
vebus_mode_from_wm: Off-grid (3) yields On (3); Mains, Bypass, Charging
(2, 4, 5) yield Charger only (1); everything else Off (4). -/
def vebus_mode_from_wm (wm : Nat) : Nat :=
  if wm = 3 then 3
  else if wm = 2 ∨ wm = 4 ∨ wm = 5 then 1
  else 4

/-- Working-mode to VE.Bus State mapping of
dbus-multiplus-emulator/dbus-multiplus-emulator.py, function
vebus_state_from_wm: Charging (5) yields Bulk (3); Off-grid (3) yields
Inverting (9); Mains and Bypass (2, 4) yield Bulk (3); everything else
Low power (1). -/
def vebus_state_from_wm (wm : Nat) : Nat :=
  if wm = 5 then 3
  else if wm = 3 then 9
  else if wm = 2 ∨ wm = 4 then 3
  else 1

/-- Grid-presence test of the update method: working mode is Mains,
Bypass or Charging, or the decoded AC-input voltage exceeds 150 V. -/
def mains_present (wm : Nat) (in_v : Rat) : Prop :=
  wm = 2 ∨ wm = 4 ∨ wm = 5 ∨ in_v > 150

instance (wm : Nat) (v : Rat) : Decidable (mains_present wm v) := by
  unfold mains_present
  infer_instance

/-- Derived AC-input current of the update method of
dbus-multiplus-emulator.py: in_p divided by in_v when in_v exceeds
5 volts, and 0.0 otherwise. -/
def in_i (in_p : Int) (in_v : Rat) : Rat :=
  if in_v > 5 then (in_p : Rat) / in_v else 0

/-- Energy accumulation step of the update method, for one tick of dt
seconds: when the grid is present and the AC-input power is strictly
positive, both grid counters gain in_p/1000 * dt/3600 kWh; when the
AC-output power is strictly positive, the inverter-to-output counter
gains out_p/1000 * dt/3600 kWh. -/
def accumulate (a : Acq) (dt : Rat) (e : Energy) : Energy :=
  let in_v : Rat := (a.in_v_raw : Rat) / 10
  let e2 : Energy :=
    if mains_present a.wm in_v ∧ a.in_p > 0 then
      { e with
        AcIn1ToInverter_kWh :=
          e.AcIn1ToInverter_kWh + (a.in_p : Rat) / 1000 * (dt / 3600)
        AcIn1ToAcOut_kWh :=
          e.AcIn1ToAcOut_kWh + (a.in_p : Rat) / 1000 * (dt / 3600) }
    else e
  if a.out_p > 0 then
    { e2 with
      InverterToAcOut_kWh :=
        e2.InverterToAcOut_kWh + (a.out_p : Rat) / 1000 * (dt / 3600) }
  else e2

/-- Values held by the D-Bus paths that the update method of
dbus-multiplus-emulator.py writes.  Paths registered with initial value
None are Option-typed. -/
structure Published where
  Connected : Nat
  Mode : Nat
  State : Nat
  VebusError : Nat
  VebusChargeState : Nat
  UpdateIndex : Nat
  AcInConnected : Nat
  AcInActiveInput : Nat
  AcInAvailable : Nat
  AcInSource : Nat
  AcInL1V : Option Rat
  AcInL1I : Option Rat
  AcInL1F : Option Rat
  AcInL1P : Option Rat
  AcInL1S : Option Rat
  AcInV : Option Rat
  AcInCurrent : Option Rat
  AcInPower : Option Rat
  AcInFrequency : Option Rat
  AcInP : Option Rat
  AcInS : Option Rat
  AcOutL1V : Option Rat
  AcOutL1I : Option Rat
  AcOutL1F : Option Rat
  AcOutL1P : Option Rat
  AcOutL1S : Option Rat
  AcOutP : Option Rat
  AcOutS : Option Rat
  DcVoltage : Option Rat
  DcCurrent : Option Rat
  DcPower : Option Rat
  Soc : Option Rat
  EnergyAcIn1ToInverter : Rat
  EnergyAcIn1ToAcOut : Rat
  EnergyInverterToAcOut : Rat
  EnergyOutToInverter : Rat
  UpTimeSec : Int
deriving DecidableEq

/-- Initial published values, as registered by the add-paths method of
MultiPlusEmuService (the energy paths start from the counters loaded at
process start). -/
def initPublished (e : Energy) : Published where
  Connected := 0
  Mode := 4
  State := 1
  VebusError := 0
  VebusChargeState := 0
  UpdateIndex := 0
  AcInConnected := 0
  AcInActiveInput := 240
  AcInAvailable := 1
  AcInSource := 1
  AcInL1V := none
  AcInL1I := none
  AcInL1F := none
  AcInL1P := none
  AcInL1S := none
  AcInV := none
  AcInCurrent := none
  AcInPower := none
  AcInFrequency := none
  AcInP := none
  AcInS := none
  AcOutL1V := none
  AcOutL1I := none
  AcOutL1F := none
  AcOutL1P := none
  AcOutL1S := none
  AcOutP := none
  AcOutS := none
  DcVoltage := none
  DcCurrent := none
  DcPower := none
  Soc := none
  EnergyAcIn1ToInverter := e.AcIn1ToInverter_kWh
  EnergyAcIn1ToAcOut := e.AcIn1ToAcOut_kWh
  EnergyInverterToAcOut := e.InverterToAcOut_kWh
  EnergyOutToInverter := 0
  UpTimeSec := 0

/-- Whole mutable state of the emulator process: the published paths, the
in-memory energy counters, the private update-index counter, and the
last-save timestamp. -/
structure EmuState where
  pub : Published
  energy : Energy
  idx : Nat
  lastSave : Rat
deriving DecidableEq

/-- State of the emulator right after service construction, with counters
loaded from disk (the last-save timestamp starts at 0.0). -/
def initState (e : Energy) : EmuState := ⟨initPublished e, e, 0, 0⟩

/-- One tick of the update method of dbus-multiplus-emulator.py.
Arguments: the acquisition outcome (none when any mandatory register read
inside the try block raised), the poll interval dt, the wall-clock time
seen by the throttled save, whether a disk write would succeed, and the
current uptime value.  Returns the new state, the energy file written (if
any) and the boolean the GLib timer callback returns: true keeps the
timer alive.  On acquisition failure only Connected is set to 0. -/
def update (acq : Option Acq) (dt tNow : Rat) (writeOk : Bool)
    (upSec : Int) (st : EmuState) : EmuState × Option EnergyData × Bool :=
  match acq with
  | none => ({ st with pub := { st.pub with Connected := 0 } }, none, true)
  | some a =>
      let in_v : Rat := (a.in_v_raw : Rat) / 10
      let in_f : Rat := (a.in_f_raw : Rat) / 100
      let in_iv : Rat := in_i a.in_p in_v
      let out_v : Rat := (a.out_v_raw : Rat) / 10
      let out_i : Rat := (a.out_i_raw : Rat) / 10
      let out_f : Rat := (a.out_f_raw : Rat) / 100
      let e3 : Energy := accumulate a dt st.energy
      let sv : Rat × Option EnergyData := save_energy tNow writeOk e3 st.lastSave
      let idx2 : Nat := (st.idx + 1) % 256
      let pub2 : Published :=
        { Connected := 1
          Mode := vebus_mode_from_wm a.wm
          State := vebus_state_from_wm a.wm
          VebusError := 0
          VebusChargeState := if a.wm = 5 then 3 else 1
          UpdateIndex := idx2
          AcInConnected := if mains_present a.wm in_v then 1 else 0
          AcInActiveInput := if mains_present a.wm in_v then 0 else 240
          AcInAvailable := 1
          AcInSource := if mains_present a.wm in_v then 1 else 0
          AcInL1V := some in_v
          AcInL1I := some in_iv
          AcInL1F := some in_f
          AcInL1P := some (a.in_p : Rat)
          AcInL1S := some ((|a.in_p| : Int) : Rat)
          AcInV := some in_v
          AcInCurrent := some in_iv
          AcInPower := some (a.in_p : Rat)
          AcInFrequency := some in_f
          AcInP := some (a.in_p : Rat)
          AcInS := some ((|a.in_p| : Int) : Rat)
          AcOutL1V := some out_v
          AcOutL1I := some out_i
          AcOutL1F := some out_f
          AcOutL1P := some (a.out_p : Rat)
          AcOutL1S := some (a.out_s : Rat)
          AcOutP := some (a.out_p : Rat)
          AcOutS := some (a.out_s : Rat)
          DcVoltage := some ((a.dc_v_raw : Rat) / 10)
          DcCurrent := some ((a.dc_i_raw : Rat) / 10)
          DcPower := some (a.dc_p : Rat)
          Soc := match a.soc with
                 | some x => some (x : Rat)
                 | none => st.pub.Soc
          EnergyAcIn1ToInverter := e3.AcIn1ToInverter_kWh
          EnergyAcIn1ToAcOut := e3.AcIn1ToAcOut_kWh
          EnergyInverterToAcOut := e3.InverterToAcOut_kWh
          EnergyOutToInverter := 0
          UpTimeSec := upSec }
      (⟨pub2, e3, idx2, sv.1⟩, sv.2, true)

/-- Inputs of one scheduled tick: acquisition outcome, poll interval,
wall-clock time for the throttled save, write success, uptime value. -/
structure TickInput where
  acq : Option Acq
  dt : Rat
  tNow : Rat
  writeOk : Bool
  upSec : Int
deriving DecidableEq

/-- State transition of one tick (the file written and the timer-alive
flag are dropped: the state carries everything mutable). -/
def step (st : EmuState) (i : TickInput) : EmuState :=
  (update i.acq i.dt i.tNow i.writeOk i.upSec st).1

/-- Run of a whole sequence of scheduled ticks. -/
def run (l : List TickInput) (st : EmuState) : EmuState :=
  l.foldl step st

/-- Every tick of the sequence has a non-negative elapsed time. -/
def DtNonneg (l : List TickInput) : Prop := ∀ i ∈ l, 0 ≤ i.dt

end Emulator

namespace Inverter

/-- Snapshot dict returned by collect_snapshot of
venus-sumry-dbus/inverter.py (decoded values; voltages, currents and
frequencies carry one or two decimals, powers and temperatures are raw
integers). -/
structure Snap where
  ModeNum : Nat
  StateNum : Nat
  Serial : String
  Out_V : Rat
  Out_I : Rat
  Out_F : Rat
  Out_P : Int
  Out_S : Int
  Dc_V : Rat
  Dc_I : Rat
  Dc_P : Int
  Inv_V : Rat
  Inv_I : Rat
  Inv_F : Rat
  Inv_P : Int
  T_Dcdc : Int
  T_Inv : Int
  Fault : Nat
  Warn : Nat
deriving DecidableEq

/-- Values held by the D-Bus paths that InverterService of
venus-sumry-dbus/inverter.py writes. -/
structure Pub where
  Connected : Nat
  Serial : String
  UpdateIndex : Nat
  AcOutL1V : Option Rat
  AcOutL1I : Option Rat
  AcOutL1F : Option Rat
  AcOutL1P : Option Int
  AcOutL1S : Option Int
  DcVoltage : Option Rat
  DcCurrent : Option Rat
  DcPower : Option Int
  IntV : Option Rat
  IntI : Option Rat
  IntF : Option Rat
  IntP : Option Int
  TDcdc : Option Int
  TInv : Option Int
  FaultCode : Nat
  WarningCode : Nat
  Mode : Nat
  State : Nat
deriving DecidableEq

/-- Service state: published paths plus the private update-index counter. -/
structure St where
  pub : Pub
  idx : Nat
deriving DecidableEq

/-- The publish method of InverterService: writes every decoded quantity,
sets Connected to 1 and bumps the wrapping update index. -/
def publish (s : Snap) (st : St) : St :=
  let idx2 := (st.idx + 1) % 256
  ⟨{ Connected := 1
     Serial := s.Serial
     UpdateIndex := idx2
     AcOutL1V := some s.Out_V
     AcOutL1I := some s.Out_I
     AcOutL1F := some s.Out_F
     AcOutL1P := some s.Out_P
     AcOutL1S := some s.Out_S
     DcVoltage := some s.Dc_V
     DcCurrent := some s.Dc_I
     DcPower := some s.Dc_P
     IntV := some s.Inv_V
     IntI := some s.Inv_I
     IntF := some s.Inv_F
     IntP := some s.Inv_P
     TDcdc := some s.T_Dcdc
     TInv := some s.T_Inv
     FaultCode := s.Fault
     WarningCode := s.Warn
     Mode := s.ModeNum
     State := s.StateNum }, idx2⟩

/-- The tick closure of the main function of inverter.py: a successful
collect_snapshot is published; an exception only sets Connected to 0; the
callback returns True either way so the timer stays alive. -/
def tick (acq : Option Snap) (st : St) : St × Bool :=
  match acq with
  | some s => (publish s st, true)
  | none => (⟨{ st.pub with Connected := 0 }, st.idx⟩, true)

end Inverter

namespace Service

/-- Snapshot dict returned by collect_snapshot of
venus-sumry-dbus/service.py. -/
structure Snap where
  Mode : String
  Fault : Nat
  Warn : Nat
  Serial : String
  Grid_V : Rat
  Grid_F : Rat
  Grid_P : Int
  Inverter_V : Rat
  Inverter_A : Rat
  Inverter_F : Rat
  Inverter_P : Int
  Inverter_Pch : Int
  Output_V : Rat
  Output_A : Rat
  Output_F : Rat
  Output_P : Int
  Output_S : Int
  Batt_V : Rat
  Batt_A : Rat
  Batt_P : Int
  SoC : Nat
  Pv_V : Rat
  Pv_A : Rat
  Pv_P : Int
  Pv_Pch : Int
  T_Dcdc : Int
  T_Inv : Int
deriving DecidableEq

/-- Values held by the D-Bus paths the PV service of service.py writes. -/
structure PvPub where
  Connected : Nat
  Serial : String
  UpdateIndex : Nat
  AcPower : Option Int
  AcL1Power : Option Int
  AcL1Voltage : Option Rat
  AcL1Current : Option Rat
  AcL1Frequency : Option Rat
  StatusMode : String
  FaultCode : Nat
  WarningCode : Nat
deriving DecidableEq

/-- Values held by the D-Bus paths the battery service of service.py
writes. -/
structure BatPub where
  Connected : Nat
  Serial : String
  UpdateIndex : Nat
  DcVoltage : Option Rat
  DcCurrent : Option Rat
  DcPower : Option Int
  Soc : Option Nat
  Temperature : Option Int
  StatusMode : String
  FaultCode : Nat
  WarningCode : Nat
deriving DecidableEq

/-- The publish method of PvInverterDbusService: PV power prefers the
charging power when it is nonzero (Python truthiness), Connected is set
to 1, the frequency path is explicitly set back to None, and the
wrapping update index is bumped. -/
def pvPublish (s : Snap) (_p : PvPub) (idx : Nat) : PvPub × Nat :=
  let pv_p : Int := if s.Pv_Pch ≠ 0 then s.Pv_Pch else s.Pv_P
  let idx2 := (idx + 1) % 256
  ({ Connected := 1
     Serial := s.Serial
     UpdateIndex := idx2
     AcPower := some pv_p
     AcL1Power := some pv_p
     AcL1Voltage := some s.Pv_V
     AcL1Current := some s.Pv_A
     AcL1Frequency := none
     StatusMode := s.Mode
     FaultCode := s.Fault
     WarningCode := s.Warn }, idx2)

/-- The publish method of BatteryDbusService. -/
def batPublish (s : Snap) (_b : BatPub) (idx : Nat) : BatPub × Nat :=
  let idx2 := (idx + 1) % 256
  ({ Connected := 1
     Serial := s.Serial
     UpdateIndex := idx2
     DcVoltage := some s.Batt_V
     DcCurrent := some s.Batt_A
     DcPower := some s.Batt_P
     Soc := some s.SoC
     Temperature := some s.T_Inv
     StatusMode := s.Mode
     FaultCode := s.Fault
     WarningCode := s.Warn }, idx2)

/-- Combined state of the two services driven by SumryPublisher. -/
structure SvcState where
  pv : PvPub
  pvIdx : Nat
  bat : BatPub
  batIdx : Nat
deriving DecidableEq

/-- One iteration of the polling loop of SumryPublisher: a successful
snapshot is published to both services; an exception sets both Connected
flags to 0 and changes nothing else.  The returned boolean is the loop
continuation condition, which is always true: the stop flag is never set
and every exception is caught. -/
def loopBody (acq : Option Snap) (st : SvcState) : SvcState × Bool :=
  match acq with
  | some s =>
      let p := pvPublish s st.pv st.pvIdx
      let b := batPublish s st.bat st.batIdx
      (⟨p.1, p.2, b.1, b.2⟩, true)
  | none =>
      (⟨{ st.pv with Connected := 0 }, st.pvIdx,
        { st.bat with Connected := 0 }, st.batIdx⟩, true)

end Service

/-- Acquisition fixture: off-grid working mode (3), AC-input voltage
10.0 V (well below the 150 V grid-presence threshold) with strictly
positive AC-input power 500 W, AC-output power 0. -/
def exAcqOffgrid : Emulator.Acq :=
  ⟨3, 100, 5000, 500, 2300, 10, 5000, 0, 0, 520, 10, 200, none⟩

/-- Acquisition fixture: mains working mode with negative AC-input power
and zero AC-output power. -/
def exAcqNeg : Emulator.Acq :=
  ⟨2, 2300, 5000, -5, 2300, 10, 5000, 0, 0, 520, 10, 200, none⟩

/-- Tick fixture wrapping exAcqNeg with a 2 second poll interval. -/
def exTickNeg : Emulator.TickInput := ⟨some exAcqNeg, 2, 0, false, 0⟩

/-- Combined/VE.Bus role Mode table as worded by the specification:
Charger only (1) for Charging (5), On (3) for Off-Grid, Mains, Bypass
(3, 2, 4), Off (4) otherwise.  Stated from the specification text, to be
compared with the three source implementations. -/
def specVebusMode (wm : Nat) : Nat :=
  if wm = 5 then 1
  else if wm = 3 ∨ wm = 2 ∨ wm = 4 then 3
  else 4

/-- Combined/VE.Bus role State table as worded by the specification:
Charging (5) yields Bulk (3), Off-Grid (3) yields Inverting (9), Mains
and Bypass (2, 4) yield Bulk (3), everything else Low power (1).  Stated
from the specification text, to be compared with the three source
implementations. -/
def specVebusState (wm : Nat) : Nat :=
  if wm = 5 then 3
  else if wm = 3 then 9
  else if wm = 2 ∨ wm = 4 then 3
  else 1

/-- Claim C1 counterexample: the claimed combined-role Mode table does not
hold for every VE.Bus-role implementation: at working mode 2 (Mains) both
dbus-multiplus-emulator.py and celmaibun.py publish Mode 1 (Charger
only), not the claimed 3 (On). -/
theorem c1_vebus_mode_counterexample :
    Emulator.vebus_mode_from_wm 2 = 1 ∧ Celmaibun.vebus_mode_from_wm 2 = 1 ∧
    (1 : Nat) ≠ 3 :=
  ⟨rfl, rfl, by decide⟩

/-- Claim C1, amended: multiplus.py realises the claimed table exactly
(Charging to Charger only; Off-Grid, Mains, Bypass to On; otherwise Off);
the two emulator variants agree with each other, follow the claimed table
at every working mode other than 2 and 4, and at working modes 2 and 4
they publish Charger only (1) where the claimed table demands On (3). -/
theorem c1_vebus_mode_amended (wm : Nat) :
    Multiplus.vebus_mode_from_wm wm = specVebusMode wm ∧
    Emulator.vebus_mode_from_wm wm = Celmaibun.vebus_mode_from_wm wm ∧
    (wm ≠ 2 → wm ≠ 4 → Emulator.vebus_mode_from_wm wm = specVebusMode wm) ∧
    ((wm = 2 ∨ wm = 4) →
      Emulator.vebus_mode_from_wm wm = 1 ∧ specVebusMode wm = 3) := by
  refine ⟨rfl, rfl, fun h2 h4 => ?_, fun h => ⟨?_, ?_⟩⟩
  · unfold Emulator.vebus_mode_from_wm specVebusMode
    split_ifs <;> omega
  · unfold Emulator.vebus_mode_from_wm
    split_ifs <;> omega
  · unfold specVebusMode
    split_ifs <;> omega

/-- Claim C1 witness: the amended statement evaluated at working mode 5,
where the emulator variants follow the claimed table, and at working mode
4, where they deviate to Charger only. -/
theorem c1_vebus_mode_witness :
    ((5 : Nat) ≠ 2 ∧ (5 : Nat) ≠ 4 ∧
      Emulator.vebus_mode_from_wm 5 = specVebusMode 5) ∧
    (Emulator.vebus_mode_from_wm 4 = 1 ∧ specVebusMode 4 = 3) :=
  ⟨⟨by decide, by decide,
    (c1_vebus_mode_amended 5).2.2.1 (by decide) (by decide)⟩,
   (c1_vebus_mode_amended 4).2.2.2 (by decide)⟩

/-- Claim C2 counterexample: the claimed combined-role State table does
not hold for every VE.Bus-role implementation: at working mode 5
(Charging) multiplus.py publishes State 9 (Inverting), not the claimed 3
(Bulk). -/
theorem c2_vebus_state_counterexample :
    Multiplus.vebus_state_from_wm 5 = 9 ∧ (9 : Nat) ≠ 3 :=
  ⟨rfl, by decide⟩

/-- Claim C2, amended: the two emulator variants realise the claimed
State table exactly (Charging to Bulk, Off-Grid to Inverting, Mains and
Bypass to Bulk, otherwise Low power); multiplus.py follows it except at
working modes 2, 4 and 5, which it maps to Inverting (9) instead of
Bulk. -/
theorem c2_vebus_state_amended (wm : Nat) :
    Emulator.vebus_state_from_wm wm = specVebusState wm ∧
    Celmaibun.vebus_state_from_wm wm = specVebusState wm ∧
    (wm ≠ 2 → wm ≠ 4 → wm ≠ 5 →
      Multiplus.vebus_state_from_wm wm = specVebusState wm) ∧
    ((wm = 2 ∨ wm = 4 ∨ wm = 5) → Multiplus.vebus_state_from_wm wm = 9) := by
  refine ⟨rfl, ?_, fun h2 h4 h5 => ?_, fun h => ?_⟩
  · unfold Celmaibun.vebus_state_from_wm specVebusState
    split_ifs <;> omega
  · unfold Multiplus.vebus_state_from_wm specVebusState
    split_ifs <;> omega
  · unfold Multiplus.vebus_state_from_wm
    split_ifs <;> omega

/-- Claim C2 witness: the amended statement evaluated at working modes 3
and 5. -/
theorem c2_vebus_state_witness :
    Multiplus.vebus_state_from_wm 3 = specVebusState 3 ∧
    Multiplus.vebus_state_from_wm 5 = 9 :=
  ⟨(c2_vebus_state_amended 3).2.2.1 (by decide) (by decide) (by decide),
   (c2_vebus_state_amended 5).2.2.2 (by decide)⟩

/-- Claim C7: for the inverter role, working modes 3, 2, 4, 5 yield Mode
On (1) and State Inverting (9), and working modes 1, 0, 6 yield Mode Off
(4) and State Standby (1). -/
theorem c7_inverter_role (wm : Nat) :
    ((wm = 3 ∨ wm = 2 ∨ wm = 4 ∨ wm = 5) →
      Inverter.venus_mode_from_wm wm = 1 ∧
      Inverter.venus_state_from_wm wm = 9) ∧
    ((wm = 1 ∨ wm = 0 ∨ wm = 6) →
      Inverter.venus_mode_from_wm wm = 4 ∧
      Inverter.venus_state_from_wm wm = 1) := by
  refine ⟨fun h => ⟨?_, ?_⟩, fun h => ⟨?_, ?_⟩⟩ <;>
    first
    | (unfold Inverter.venus_mode_from_wm; split_ifs <;> omega)
    | (unfold Inverter.venus_state_from_wm; split_ifs <;> omega)

/-- Claim C7 witness: the statement evaluated at working modes 3 and 6. -/
theorem c7_inverter_role_witness :
    (Inverter.venus_mode_from_wm 3 = 1 ∧ Inverter.venus_state_from_wm 3 = 9) ∧
    (Inverter.venus_mode_from_wm 6 = 4 ∧ Inverter.venus_state_from_wm 6 = 1) :=
  ⟨(c7_inverter_role 3).1 (by decide), (c7_inverter_role 6).2 (by decide)⟩

/-- Claim C9: loading a missing or malformed energy file twice in a row,
starting from the initial counters, raises nothing (the model is total)
and leaves every counter equal to zero after each of the two calls. -/
theorem c9_load_missing_twice :
    Emulator.load_energy none (Emulator.load_energy none Emulator.initEnergy) =
      Emulator.initEnergy ∧
    (Emulator.load_energy none Emulator.initEnergy).AcIn1ToInverter_kWh = 0 ∧
    (Emulator.load_energy none Emulator.initEnergy).AcIn1ToAcOut_kWh = 0 ∧
    (Emulator.load_energy none Emulator.initEnergy).InverterToAcOut_kWh = 0 ∧
    (Emulator.load_energy none
      (Emulator.load_energy none Emulator.initEnergy)).AcIn1ToInverter_kWh = 0 ∧
    (Emulator.load_energy none
      (Emulator.load_energy none Emulator.initEnergy)).AcIn1ToAcOut_kWh = 0 ∧
    (Emulator.load_energy none
      (Emulator.load_energy none Emulator.initEnergy)).InverterToAcOut_kWh = 0 :=
  ⟨rfl, rfl, rfl, rfl, rfl, rfl, rfl⟩

/-- Claim C8: saving any non-negative counter state and loading the
written file back restores exactly the saved values, whatever the
counters held before the load; and whenever the throttled save does write
a file, that file is exactly the full snapshot of the current counters. -/
theorem c8_save_load_roundtrip (e e0 : Emulator.Energy) (now ls : Rat)
    (h1 : 0 ≤ e.AcIn1ToInverter_kWh) (h2 : 0 ≤ e.AcIn1ToAcOut_kWh)
    (h3 : 0 ≤ e.InverterToAcOut_kWh) :
    Emulator.load_energy (some (Emulator.saveData e)) e0 = e ∧
    ((Emulator.save_energy now true e ls).2 = none ∨
     (Emulator.save_energy now true e ls).2 = some (Emulator.saveData e)) := by
  constructor
  · cases e
    rfl
  · unfold Emulator.save_energy
    split_ifs <;> simp

/-- Claim C8 witness: the round trip evaluated at the concrete counter
state 1, 2, 3 loaded over the state 5, 6, 7. -/
theorem c8_save_load_roundtrip_witness :
    (0 : Rat) ≤ 1 ∧ (0 : Rat) ≤ 2 ∧ (0 : Rat) ≤ 3 ∧
    Emulator.load_energy (some (Emulator.saveData ⟨1, 2, 3⟩)) ⟨5, 6, 7⟩ =
      (⟨1, 2, 3⟩ : Emulator.Energy) :=
  ⟨by norm_num, by norm_num, by norm_num,
   (c8_save_load_roundtrip ⟨1, 2, 3⟩ ⟨5, 6, 7⟩ 100 0 (by norm_num)
     (by norm_num) (by norm_num)).1⟩

/-- Claim C5: when the acquisition phase of a poll tick fails, the
emulator tick publishes nothing except Connected set to 0, leaving the
energy counters, the update index, the last-save timestamp and every
telemetry path unchanged, writes no file, and keeps the timer alive; the
inverter tick and the PV/battery loop behave the same way; and in every
variant Connected becomes 1 exactly on a fully successful acquisition. -/
theorem c5_failure_isolation (st : Emulator.EmuState) (dt tNow : Rat)
    (w : Bool) (up : Int) (a : Emulator.Acq) (ist : Inverter.St)
    (isnap : Inverter.Snap) (sst : Service.SvcState) (ssnap : Service.Snap) :
    Emulator.update none dt tNow w up st =
      ({ st with pub := { st.pub with Connected := 0 } }, none, true) ∧
    (Emulator.update (some a) dt tNow w up st).1.pub.Connected = 1 ∧
    Inverter.tick none ist =
      (⟨{ ist.pub with Connected := 0 }, ist.idx⟩, true) ∧
    (Inverter.tick (some isnap) ist).1.pub.Connected = 1 ∧
    Service.loopBody none sst =
      (⟨{ sst.pv with Connected := 0 }, sst.pvIdx,
        { sst.bat with Connected := 0 }, sst.batIdx⟩, true) ∧
    (Service.loopBody (some ssnap) sst).1.pv.Connected = 1 ∧
    (Service.loopBody (some ssnap) sst).1.bat.Connected = 1 :=
  ⟨rfl, rfl, rfl, rfl, rfl, rfl, rfl⟩

/-- Claim C6: two invocations of the throttled save separated by less
than ENERGY_SAVE_SEC perform at most one durable write (if the first one
wrote, the second is skipped); a failed write never advances the
last-save timestamp; and the write outcome never changes the in-memory
counters of the tick. -/
theorem c6_throttled_save (t1 t2 ls : Rat) (ok1 ok2 : Bool)
    (e e2 : Emulator.Energy) (acq : Option Emulator.Acq) (dt tN : Rat)
    (up : Int) (st : Emulator.EmuState)
    (h : t2 - t1 < Emulator.ENERGY_SAVE_SEC) :
    ((Emulator.save_energy t1 ok1 e ls).2 ≠ none →
      (Emulator.save_energy t2 ok2 e2
        (Emulator.save_energy t1 ok1 e ls).1).2 = none) ∧
    (Emulator.save_energy t1 false e ls).1 = ls ∧
    (Emulator.update acq dt tN true up st).1.energy =
      (Emulator.update acq dt tN false up st).1.energy := by
  refine ⟨?_, ?_, ?_⟩
  · intro hw
    by_cases h1 : t1 - ls < Emulator.ENERGY_SAVE_SEC
    · simp [Emulator.save_energy, h1] at hw
    · cases ok1 with
      | false => simp [Emulator.save_energy, h1] at hw
      | true =>
          have hfst : (Emulator.save_energy t1 true e ls).1 = t1 := by
            simp [Emulator.save_energy, h1]
          rw [hfst]
          unfold Emulator.save_energy
          rw [if_pos h]
  · unfold Emulator.save_energy
    split_ifs <;> simp_all
  · cases acq <;> rfl

/-- Claim C6 witness: a successful write at time 100 after last save 0,
then a second invocation at time 130, which is throttled away. -/
theorem c6_throttled_save_witness :
    (130 : Rat) - 100 < Emulator.ENERGY_SAVE_SEC ∧
    (Emulator.save_energy 130 true Emulator.initEnergy
      (Emulator.save_energy 100 true Emulator.initEnergy 0).1).2 = none :=
  ⟨by norm_num [Emulator.ENERGY_SAVE_SEC],
   (c6_throttled_save 100 130 0 true true Emulator.initEnergy
     Emulator.initEnergy none 2 0 0 (Emulator.initState Emulator.initEnergy)
     (by norm_num [Emulator.ENERGY_SAVE_SEC])).1
     (by
       norm_num [Emulator.save_energy, Emulator.ENERGY_SAVE_SEC]
       exact Option.some_ne_none _)⟩

/-- Claim C10: in every variant the derived AC-input current is 0 when
the decoded voltage does not exceed the variant's guard threshold
(nonzero for multiplus.py, 20 V for celmaibun.py, 5 V for
dbus-multiplus-emulator.py), and when the guard holds the divisor is
provably nonzero and the published current is exactly power over
voltage, so the derivation is total and never divides by zero. -/
theorem c10_current_division_guard (p : Int) (v : Rat) (a : Emulator.Acq)
    (dt tN : Rat) (w : Bool) (up : Int) (st : Emulator.EmuState) :
    (v = 0 → Multiplus.in_i p v = 0) ∧
    (v ≠ 0 → Multiplus.in_i p v * v = (p : Rat)) ∧
    (¬ v > 20 → Celmaibun.in_i p v = 0) ∧
    (v > 20 → v ≠ 0 ∧ Celmaibun.in_i p v * v = (p : Rat)) ∧
    (¬ (a.in_v_raw : Rat) / 10 > 5 →
      (Emulator.update (some a) dt tN w up st).1.pub.AcInL1I = some 0) ∧
    ((a.in_v_raw : Rat) / 10 > 5 →
      (a.in_v_raw : Rat) / 10 ≠ 0 ∧
      (Emulator.update (some a) dt tN w up st).1.pub.AcInL1I =
        some ((a.in_p : Rat) / ((a.in_v_raw : Rat) / 10))) := by
  refine ⟨fun h => ?_, fun h => ?_, fun h => ?_, fun h => ?_,
    fun h => ?_, fun h => ?_⟩
  · simp [Multiplus.in_i, h]
  · rw [Multiplus.in_i, if_pos h]
    exact div_mul_cancel₀ _ h
  · simp [Celmaibun.in_i, h]
  · have hv : (0 : Rat) < v := lt_trans (by norm_num) h
    refine ⟨ne_of_gt hv, ?_⟩
    rw [Celmaibun.in_i, if_pos h]
    exact div_mul_cancel₀ _ (ne_of_gt hv)
  · show some (Emulator.in_i a.in_p ((a.in_v_raw : Rat) / 10)) = some 0
    rw [Emulator.in_i, if_neg h]
  · have hv : (0 : Rat) < (a.in_v_raw : Rat) / 10 := lt_trans (by norm_num) h
    refine ⟨ne_of_gt hv, ?_⟩
    show some (Emulator.in_i a.in_p ((a.in_v_raw : Rat) / 10)) = some _
    rw [Emulator.in_i, if_pos h]

/-- Claim C10 witness: the guard evaluated at voltage 0 and at voltage
30 for the standalone derivations, and at the concrete off-grid
acquisition (decoded voltage 10 V, power 500 W) for the emulator tick. -/
theorem c10_current_division_guard_witness :
    Multiplus.in_i 100 0 = 0 ∧ Multiplus.in_i 100 30 * 30 = 100 ∧
    Celmaibun.in_i 100 30 * 30 = (100 : Rat) ∧
    (Emulator.update (some exAcqOffgrid) 2 0 false 0
      (Emulator.initState Emulator.initEnergy)).1.pub.AcInL1I = some 50 := by
  refine ⟨?_, ?_, ?_, ?_⟩
  · exact (c10_current_division_guard 100 0 exAcqOffgrid 2 0 false 0
      (Emulator.initState Emulator.initEnergy)).1 rfl
  · exact (c10_current_division_guard 100 30 exAcqOffgrid 2 0 false 0
      (Emulator.initState Emulator.initEnergy)).2.1 (by norm_num)
  · exact ((c10_current_division_guard 100 30 exAcqOffgrid 2 0 false 0
      (Emulator.initState Emulator.initEnergy)).2.2.2.1 (by norm_num)).2
  · have h := ((c10_current_division_guard 100 30 exAcqOffgrid 2 0 false 0
      (Emulator.initState Emulator.initEnergy)).2.2.2.2.2
      (by norm_num [exAcqOffgrid])).2
    rw [h]
    norm_num [exAcqOffgrid]

/-- Claim C3 counterexample: a tick with off-grid working mode 3, decoded
AC-input voltage 10 V (grid not present) and strictly positive AC-input
power 500 W leaves both grid counters at 0, while the claim demands an
unconditional increase of in_p/1000 * dt/3600. -/
theorem c3_grid_accumulation_counterexample :
    (Emulator.update (some exAcqOffgrid) 2 0 false 0
      (Emulator.initState Emulator.initEnergy)).1.energy.AcIn1ToInverter_kWh
      = 0 ∧
    (Emulator.update (some exAcqOffgrid) 2 0 false 0
      (Emulator.initState Emulator.initEnergy)).1.energy.AcIn1ToAcOut_kWh
      = 0 ∧
    exAcqOffgrid.in_p > 0 ∧
    (0 : Rat) ≠ 0 + (exAcqOffgrid.in_p : Rat) / 1000 * ((2 : Rat) / 3600) := by
  have he : (Emulator.update (some exAcqOffgrid) 2 0 false 0
      (Emulator.initState Emulator.initEnergy)).1.energy =
      Emulator.accumulate exAcqOffgrid 2 Emulator.initEnergy := rfl
  refine ⟨?_, ?_, by norm_num [exAcqOffgrid], by norm_num [exAcqOffgrid]⟩ <;>
    rw [he] <;>
    norm_num [Emulator.accumulate, Emulator.mains_present, exAcqOffgrid,
      Emulator.initEnergy]

/-- Claim C3, amended: per tick the grid counters AcIn1ToInverter_kWh and
AcIn1ToAcOut_kWh each gain exactly in_p/1000 * dt/3600 kWh when the grid
is present (working mode in 2, 4, 5 or decoded input voltage above
150 V) and in_p is strictly positive, and are unchanged otherwise; the
counter InverterToAcOut_kWh gains exactly out_p/1000 * dt/3600 kWh when
out_p is strictly positive and is unchanged otherwise. -/
theorem c3_accumulation_amended (a : Emulator.Acq) (dt tNow : Rat)
    (w : Bool) (up : Int) (st : Emulator.EmuState) :
    (Emulator.update (some a) dt tNow w up st).1.energy.AcIn1ToInverter_kWh =
      st.energy.AcIn1ToInverter_kWh +
        (if Emulator.mains_present a.wm ((a.in_v_raw : Rat) / 10) ∧
            a.in_p > 0
          then (a.in_p : Rat) / 1000 * (dt / 3600) else 0) ∧
    (Emulator.update (some a) dt tNow w up st).1.energy.AcIn1ToAcOut_kWh =
      st.energy.AcIn1ToAcOut_kWh +
        (if Emulator.mains_present a.wm ((a.in_v_raw : Rat) / 10) ∧
            a.in_p > 0
          then (a.in_p : Rat) / 1000 * (dt / 3600) else 0) ∧
    (Emulator.update (some a) dt tNow w up st).1.energy.InverterToAcOut_kWh =
      st.energy.InverterToAcOut_kWh +
        (if a.out_p > 0 then (a.out_p : Rat) / 1000 * (dt / 3600) else 0) := by
  have he : (Emulator.update (some a) dt tNow w up st).1.energy =
      Emulator.accumulate a dt st.energy := rfl
  refine ⟨?_, ?_, ?_⟩ <;> rw [he] <;>
    simp only [Emulator.accumulate] <;> split_ifs <;> simp

/-- Field-level description of one energy accumulation step: each counter
equals its previous value plus the guarded per-tick delta. -/
lemma accumulate_fields (a : Emulator.Acq) (dt : Rat) (e : Emulator.Energy) :
    (Emulator.accumulate a dt e).AcIn1ToInverter_kWh =
      e.AcIn1ToInverter_kWh +
        (if Emulator.mains_present a.wm ((a.in_v_raw : Rat) / 10) ∧
            a.in_p > 0
          then (a.in_p : Rat) / 1000 * (dt / 3600) else 0) ∧
    (Emulator.accumulate a dt e).AcIn1ToAcOut_kWh =
      e.AcIn1ToAcOut_kWh +
        (if Emulator.mains_present a.wm ((a.in_v_raw : Rat) / 10) ∧
            a.in_p > 0
          then (a.in_p : Rat) / 1000 * (dt / 3600) else 0) ∧
    (Emulator.accumulate a dt e).InverterToAcOut_kWh =
      e.InverterToAcOut_kWh +
        (if a.out_p > 0 then (a.out_p : Rat) / 1000 * (dt / 3600) else 0) := by
  refine ⟨?_, ?_, ?_⟩ <;> simp only [Emulator.accumulate] <;>
    split_ifs <;> simp

/-- A non-negative elapsed time makes every per-tick energy delta
non-negative, so one accumulation step never decreases a counter. -/
lemma accumulate_mono (a : Emulator.Acq) (dt : Rat) (e : Emulator.Energy)
    (h : 0 ≤ dt) :
    e.AcIn1ToInverter_kWh ≤ (Emulator.accumulate a dt e).AcIn1ToInverter_kWh ∧
    e.AcIn1ToAcOut_kWh ≤ (Emulator.accumulate a dt e).AcIn1ToAcOut_kWh ∧
    e.InverterToAcOut_kWh ≤
      (Emulator.accumulate a dt e).InverterToAcOut_kWh := by
  have hd : ∀ p : Int, 0 < p → (0 : Rat) ≤ (p : Rat) / 1000 * (dt / 3600) :=
    fun p hp =>
      mul_nonneg (div_nonneg (by exact_mod_cast le_of_lt hp) (by norm_num))
        (div_nonneg h (by norm_num))
  obtain ⟨hA, hB, hC⟩ := accumulate_fields a dt e
  rw [hA, hB, hC]
  refine ⟨le_add_of_nonneg_right ?_, le_add_of_nonneg_right ?_,
    le_add_of_nonneg_right ?_⟩
  · split_ifs with hc
    · exact hd _ hc.2
    · exact le_rfl
  · split_ifs with hc
    · exact hd _ hc.2
    · exact le_rfl
  · split_ifs with hc
    · exact hd _ hc
    · exact le_rfl

/-- The energy component of a tick whose acquisition succeeded is exactly
the accumulation step. -/
lemma step_some_energy (st : Emulator.EmuState) (i : Emulator.TickInput)
    (a : Emulator.Acq) (hacq : i.acq = some a) :
    (Emulator.step st i).energy = Emulator.accumulate a i.dt st.energy := by
  rcases i with ⟨acq, dt, tN, w, up⟩
  cases acq with
  | none => exact Option.noConfusion hacq
  | some b =>
      obtain rfl : b = a := Option.some.inj hacq
      rfl

/-- One tick never decreases any counter when its elapsed time is
non-negative. -/
lemma step_energy_mono (st : Emulator.EmuState) (i : Emulator.TickInput)
    (h : 0 ≤ i.dt) :
    st.energy.AcIn1ToInverter_kWh ≤
      (Emulator.step st i).energy.AcIn1ToInverter_kWh ∧
    st.energy.AcIn1ToAcOut_kWh ≤
      (Emulator.step st i).energy.AcIn1ToAcOut_kWh ∧
    st.energy.InverterToAcOut_kWh ≤
      (Emulator.step st i).energy.InverterToAcOut_kWh := by
  rcases i with ⟨acq, dt, tN, w, up⟩
  cases acq with
  | none => exact ⟨le_rfl, le_rfl, le_rfl⟩
  | some a => exact accumulate_mono a dt st.energy h

/-- A whole run of ticks with non-negative elapsed times never decreases
any counter. -/
lemma run_energy_mono (l : List Emulator.TickInput) :
    ∀ st : Emulator.EmuState, Emulator.DtNonneg l →
      st.energy.AcIn1ToInverter_kWh ≤
        (Emulator.run l st).energy.AcIn1ToInverter_kWh ∧
      st.energy.AcIn1ToAcOut_kWh ≤
        (Emulator.run l st).energy.AcIn1ToAcOut_kWh ∧
      st.energy.InverterToAcOut_kWh ≤
        (Emulator.run l st).energy.InverterToAcOut_kWh := by
  induction l with
  | nil => exact fun st _ => ⟨le_rfl, le_rfl, le_rfl⟩
  | cons i t ih =>
      intro st h
      have hi : 0 ≤ i.dt := h i (by simp)
      have ht : Emulator.DtNonneg t := fun j hj => h j (by simp [hj])
      have h1 := step_energy_mono st i hi
      have h2 := ih (Emulator.step st i) ht
      have hrun : Emulator.run (i :: t) st =
          Emulator.run t (Emulator.step st i) := rfl
      rw [hrun]
      exact ⟨le_trans h1.1 h2.1, le_trans h1.2.1 h2.2.1,
        le_trans h1.2.2 h2.2.2⟩

/-- Claim C4: starting from any counter state, a sequence of poll ticks
with non-negative elapsed times leaves every energy counter monotonically
non-decreasing; a tick whose AC-input power sample is not strictly
positive leaves both grid counters unchanged, and one whose AC-output
power sample is not strictly positive leaves the inverter-to-output
counter unchanged. -/
theorem c4_energy_monotone (l : List Emulator.TickInput)
    (i : Emulator.TickInput) (a : Emulator.Acq) (st : Emulator.EmuState) :
    (Emulator.DtNonneg l →
      st.energy.AcIn1ToInverter_kWh ≤
        (Emulator.run l st).energy.AcIn1ToInverter_kWh ∧
      st.energy.AcIn1ToAcOut_kWh ≤
        (Emulator.run l st).energy.AcIn1ToAcOut_kWh ∧
      st.energy.InverterToAcOut_kWh ≤
        (Emulator.run l st).energy.InverterToAcOut_kWh) ∧
    (i.acq = some a → a.in_p ≤ 0 →
      (Emulator.step st i).energy.AcIn1ToInverter_kWh =
        st.energy.AcIn1ToInverter_kWh ∧
      (Emulator.step st i).energy.AcIn1ToAcOut_kWh =
        st.energy.AcIn1ToAcOut_kWh) ∧
    (i.acq = some a → a.out_p ≤ 0 →
      (Emulator.step st i).energy.InverterToAcOut_kWh =
        st.energy.InverterToAcOut_kWh) := by
  refine ⟨fun h => run_energy_mono l st h, fun hacq hp => ?_,
    fun hacq hp => ?_⟩
  · obtain ⟨hA, hB, _⟩ := accumulate_fields a i.dt st.energy
    rw [step_some_energy st i a hacq, hA, hB]
    have hcond : ¬(Emulator.mains_present a.wm ((a.in_v_raw : Rat) / 10) ∧
        a.in_p > 0) := fun hc => absurd hc.2 (not_lt.mpr hp)
    rw [if_neg hcond, add_zero, add_zero]
    exact ⟨rfl, rfl⟩
  · obtain ⟨_, _, hC⟩ := accumulate_fields a i.dt st.energy
    rw [step_some_energy st i a hacq, hC, if_neg (not_lt.mpr hp), add_zero]

/-- Claim C4 witness: one tick with negative AC-input power and zero
AC-output power, run from the initial state. -/
theorem c4_energy_monotone_witness :
    Emulator.DtNonneg [exTickNeg] ∧
    (Emulator.initState Emulator.initEnergy).energy.AcIn1ToInverter_kWh ≤
      (Emulator.run [exTickNeg]
        (Emulator.initState Emulator.initEnergy)).energy.AcIn1ToInverter_kWh ∧
    (Emulator.step (Emulator.initState Emulator.initEnergy)
        exTickNeg).energy.AcIn1ToInverter_kWh =
      (Emulator.initState Emulator.initEnergy).energy.AcIn1ToInverter_kWh ∧
    (Emulator.step (Emulator.initState Emulator.initEnergy)
        exTickNeg).energy.InverterToAcOut_kWh =
      (Emulator.initState Emulator.initEnergy).energy.InverterToAcOut_kWh := by
  have hdt : Emulator.DtNonneg [exTickNeg] := by
    intro j hj
    have hj2 : j = exTickNeg := by simpa using hj
    subst hj2
    norm_num [exTickNeg]
  have hc := c4_energy_monotone [exTickNeg] exTickNeg exAcqNeg
    (Emulator.initState Emulator.initEnergy)
  exact ⟨hdt, (hc.1 hdt).1, (hc.2.1 rfl (by decide)).1, hc.2.2 rfl (by decide)⟩
